import Mathlib

set_option maxRecDepth 100000

/-!
Verification of the text-analysis heuristics of the EduCrewAI repository
(`tools/custom_tool.py`): the subject classifier, grade-level extractor,
section extractors, and the complexity analyzer.  Strings are modelled as
`List Char`; Python string primitives (`split`, `strip`, `in`, `startswith`,
`lower`, …) are embedded as executable functions with Python semantics.
-/

/-- Characters treated as whitespace by Python string methods. -/
def pySpace (c : Char) : Bool :=
  c = ' ' || c = '\t' || c = '\n' || c = '\r' || c = '\x0b' || c = '\x0c'

/-- View a Lean string literal as a list of characters. -/
def strL (s : String) : List Char := s.toList

/-- Python `str.lower` restricted to ASCII (all inputs of interest are ASCII). -/
def pyToLower (l : List Char) : List Char := l.map Char.toLower

/-- Python substring test `sub in s`. -/
def isSubL (sub : List Char) : List Char → Bool
  | [] => sub.isEmpty
  | c :: t => sub.isPrefixOf (c :: t) || isSubL sub t

/-- Python `any(marker in l for marker in subs)`. -/
def containsAnyL (l : List Char) (subs : List (List Char)) : Bool :=
  subs.any (fun m => isSubL m l)

/-- Python `str.strip()`: remove leading and trailing whitespace. -/
def pyStrip (l : List Char) : List Char :=
  ((l.dropWhile pySpace).reverse.dropWhile pySpace).reverse

/-- Python `s.split(sep)` generalized to a character predicate: split at every
separator character, keeping empty pieces; the result is never empty. -/
def splitOnPred (p : Char → Bool) : List Char → List (List Char)
  | [] => [[]]
  | c :: t =>
    let r := splitOnPred p t
    if p c then [] :: r
    else
      match r with
      | [] => [[c]]
      | h :: rt => (c :: h) :: rt

/-- Python `s.split(c)` for a single separator character. -/
def pySplitOnChar (s : List Char) (c : Char) : List (List Char) :=
  splitOnPred (fun d => d == c) s

/-- Helper for `pySplitWs`: accumulate the current word (reversed). -/
def pySplitWsAux : List Char → List Char → List (List Char)
  | [], cur => if cur.isEmpty then [] else [cur.reverse]
  | c :: t, cur =>
    if pySpace c then
      if cur.isEmpty then pySplitWsAux t [] else cur.reverse :: pySplitWsAux t []
    else pySplitWsAux t (c :: cur)

/-- Python `s.split()` (no argument): split on whitespace runs, dropping
empty pieces. -/
def pySplitWs (s : List Char) : List (List Char) := pySplitWsAux s []

/-! ## Subject classification (`_identify_subject`) -/

/-- The ordered subject keyword table, transcribed from the source. -/
def subjectKeywords : List (String × List String) :=
  [ ("Mathematics", ["equation", "solve", "calculate", "algebra", "geometry",
       "theorem", "formula", "graph", "function", "variable",
       "quadratic", "polynomial", "trigonometry", "calculus"]),
    ("Science", ["experiment", "hypothesis", "cell", "atom", "chemistry",
       "biology", "physics", "photosynthesis", "molecule", "energy",
       "reaction", "organism", "ecosystem", "matter"]),
    ("English/Language Arts", ["grammar", "writing", "literature", "essay",
       "poem", "reading", "paragraph", "sentence",
       "comprehension", "vocabulary", "author", "theme"]),
    ("Social Studies/History", ["war", "revolution", "civilization", "government",
       "geography", "culture", "society", "empire",
       "constitution", "democracy", "economy"]),
    ("Music", ["rhythm", "melody", "notation", "tempo", "scale", "chord",
       "instrument", "beat", "harmony", "composition"]),
    ("Art", ["painting", "drawing", "sculpture", "color theory", "perspective",
       "composition", "medium", "texture", "artist"]),
    ("Physical Education", ["exercise", "fitness", "sport", "movement", "health",
       "coordination", "athletics", "wellness"]),
    ("Computer Science", ["code", "programming", "algorithm", "software", "computer",
       "variable", "function", "loop", "debug"]) ]

/-- Per-category scores as computed by the source: for each category, the
number of its keywords that occur (at least once) in the lowered text. -/
def subjectScores (nl : List Char) : List (String × Nat) :=
  subjectKeywords.map (fun p => (p.1, (p.2.filter (fun k => isSubL (strL k) nl)).length))

/-- The `if score > 0` filter building the Python `subject_scores` dict. -/
def positives (l : List (String × Nat)) : List (String × Nat) :=
  l.filter (fun p => decide (0 < p.2))

/-- One step of Python `max(..., key=...)`: keep the current best on ties. -/
def pyStep (b q : String × Nat) : String × Nat :=
  if b.2 < q.2 then q else b

/-- Python `max(d, key=d.get)` over an insertion-ordered association list:
the first element attaining the maximal score; `none` on the empty list. -/
def pyMax : List (String × Nat) → Option (String × Nat)
  | [] => none
  | b :: l => some (l.foldl pyStep b)

/-- `_identify_subject` from the source. -/
def identifySubject (notes : String) : String :=
  match pyMax (positives (subjectScores (pyToLower (strL notes)))) with
  | some p => p.1
  | none => "General/Multi-Subject"

/-- Fuel-driven scanner for `countOcc`; the fuel bounds the number of
characters still to be consumed, so `fuel = s.length` always suffices. -/
def countOccAux (sub : List Char) : Nat → List Char → Nat
  | 0, _ => 0
  | _ + 1, [] => 0
  | fuel + 1, c :: t =>
    if sub.isPrefixOf (c :: t) ∧ 0 < sub.length
    then 1 + countOccAux sub fuel (t.drop (sub.length - 1))
    else countOccAux sub fuel t

/-- Number of non-overlapping occurrences of `sub` in a string (Python
`str.count` semantics for a non-empty needle). -/
def countOcc (sub s : List Char) : Nat := countOccAux sub s.length s

/-- Modelled from the spec: per-category scores counting every occurrence of
every keyword ("a keyword counts once per occurrence"), as claim C1 words it. -/
def occScores (nl : List Char) : List (String × Nat) :=
  subjectKeywords.map (fun p => (p.1, (p.2.map (fun k => countOcc (strL k) nl)).sum))

/-- Maximal score of an association list (0 when empty). -/
def maxScore : List (String × Nat) → Nat
  | [] => 0
  | p :: l => max p.2 (maxScore l)

/-- Modelled from the spec: the subject classifier as claim C1 describes it —
occurrence-counted scores, highest total wins with first-declared tie break,
`General/Multi-Subject` when every category scores zero. -/
def identifySubjectOcc (notes : String) : String :=
  let l := occScores (pyToLower (strL notes))
  let m := maxScore l
  if m = 0 then "General/Multi-Subject"
  else (((l.find? (fun p => decide (p.2 = m))).map Prod.fst).getD "")

/-- Spec-style restatement of the amended classifier: presence-counted scores,
first category attaining the maximal score, `General/Multi-Subject` when the
maximum is zero. -/
def identifySubjectPresence (notes : String) : String :=
  let l := subjectScores (pyToLower (strL notes))
  let m := maxScore l
  if m = 0 then "General/Multi-Subject"
  else (((l.find? (fun p => decide (p.2 = m))).map Prod.fst).getD "")

/-- Score of the `k`-th declared category on the given notes. -/
def scoreAt (notes : String) (k : Nat) : Nat :=
  ((subjectScores (pyToLower (strL notes))).getD k ("", 0)).2

/-- Name of the `k`-th declared category. -/
def subjectAt (k : Nat) : String := (subjectKeywords.getD k ("", [])).1

/-! ## Grade-level extraction (`_extract_grade_level`) -/

/-- Regex `grade\s*(\d+)` tried at the current position: the literal `grade`,
optional whitespace, then the captured maximal digit run. -/
def matchPat1At (l : List Char) : Option (List Char) :=
  if (strL "grade").isPrefixOf l then
    let rest := (l.drop 5).dropWhile pySpace
    let run := rest.takeWhile Char.isDigit
    if run.isEmpty then none else some run
  else none

/-- Regex `(\d+)(?:st|nd|rd|th)\s+grade` tried at the current position. -/
def matchPat2At (l : List Char) : Option (List Char) :=
  let run := l.takeWhile Char.isDigit
  if run.isEmpty then none
  else
    let rest := l.dropWhile Char.isDigit
    if [strL "st", strL "nd", strL "rd", strL "th"].any (fun o => o.isPrefixOf rest) then
      let rest2 := rest.drop 2
      if (rest2.takeWhile pySpace).isEmpty then none
      else if (strL "grade").isPrefixOf (rest2.dropWhile pySpace) then some run
      else none
    else none

/-- Regex `level[:\s]+(\d+)` tried at the current position. -/
def matchPat3At (l : List Char) : Option (List Char) :=
  if (strL "level").isPrefixOf l then
    let rest := l.drop 5
    let sep := rest.takeWhile (fun c => c == ':' || pySpace c)
    if sep.isEmpty then none
    else
      let run := (rest.dropWhile (fun c => c == ':' || pySpace c)).takeWhile Char.isDigit
      if run.isEmpty then none else some run
  else none

/-- `re.search`: try a position matcher at every position, leftmost first. -/
def searchAt (m : List Char → Option (List Char)) : List Char → Option (List Char)
  | [] => m []
  | c :: t =>
    match m (c :: t) with
    | some r => some r
    | none => searchAt m t

/-- The explicit-numeric-grade scan: the three regexes tried in source order,
each searched over the whole lowered text. -/
def numericGrade (nl : List Char) : Option (List Char) :=
  (searchAt matchPat1At nl).orElse fun _ =>
    (searchAt matchPat2At nl).orElse fun _ => searchAt matchPat3At nl

/-- `_extract_grade_level` from the source. -/
def extractGradeLevel (notes : String) : String :=
  let nl := pyToLower (strL notes)
  match numericGrade nl with
  | some ds => "Grade " ++ String.mk ds
  | none =>
    if containsAnyL nl [strL "elementary", strL "primary", strL "kindergarten"] then
      "K-5 (Elementary)"
    else if containsAnyL nl [strL "middle school", strL "junior high"] then
      "6-8 (Middle School)"
    else if containsAnyL nl [strL "high school", strL "secondary"] then
      "9-12 (High School)"
    else if containsAnyL nl [strL "college", strL "university", strL "undergraduate"] then
      "College/University"
    else if containsAnyL nl [strL "basic", strL "introduction", strL "simple", strL "beginner"] then
      "Elementary to Middle School (Est.)"
    else if containsAnyL nl [strL "advanced", strL "complex", strL "in-depth"] then
      "High School to College (Est.)"
    else "Not Specified (Grades 6-12 adaptable)"

/-! ## Section extraction (two-state scans over the lines of the text) -/

/-- The lines of the text, as Python `notes.split('\n')`. -/
def pyLines (notes : String) : List (List Char) := pySplitOnChar (strL notes) '\n'

/-- Python `line.startswith((' ', '\t', '-', '•', '*'))`. -/
def startsBullet : List Char → Bool
  | [] => false
  | c :: _ => c = ' ' || c = '\t' || c = '-' || c = '•' || c = '*'

/-- Python `':' in line`. -/
def hasColon (l : List Char) : Bool := l.any (fun c => c == ':')

/-- Python `line[0].isupper()` guarded against the empty line. -/
def firstUpper : List Char → Bool
  | [] => false
  | c :: _ => c.isUpper

/-- Python `line.strip()` truthiness. -/
def nonBlank (l : List Char) : Bool := !(pyStrip l).isEmpty

/-- Python `re.sub(r'^[\s\-•*]+', '', line)`. -/
def dropBullets (l : List Char) : List Char :=
  l.dropWhile (fun c => pySpace c || c == '-' || c == '•' || c == '*')

/-- Markers opening a key-concepts section. -/
def concMarkers : List (List Char) := [strL "key concept", strL "main concept", strL "concepts:"]

/-- Whether a line opens a key-concepts section (matched on the lowered,
stripped line). -/
def isConcMarker (line : List Char) : Bool :=
  containsAnyL (pyStrip (pyToLower line)) concMarkers

/-- One line of `_extract_key_concepts`: state is (in-section flag,
accumulated concepts). -/
def concStep (st : Bool × List (List Char)) (line : List Char) : Bool × List (List Char) :=
  if isConcMarker line then (true, st.2)
  else
    let inside :=
      if st.1 && nonBlank line && !startsBullet line && (hasColon line || firstUpper line)
      then false else st.1
    if inside && nonBlank line then
      let c := pyStrip (dropBullets line)
      if 5 < c.length then (inside, st.2 ++ [c]) else (inside, st.2)
    else (inside, st.2)

/-- The full, untruncated key-concepts scan. -/
def keyConceptsScan (notes : String) : List (List Char) :=
  ((pyLines notes).foldl concStep (false, [])).2

/-- `_extract_key_concepts` from the source (truncated to 10). -/
def extractKeyConcepts (notes : String) : List (List Char) :=
  (keyConceptsScan notes).take 10

/-- Markers opening an objectives section. -/
def objMarkers : List (List Char) :=
  [strL "learning objective", strL "objective", strL "students will", strL "goal"]

/-- Whether a line opens an objectives section. -/
def isObjMarker (line : List Char) : Bool :=
  containsAnyL (pyStrip (pyToLower line)) objMarkers

/-- One line of `_extract_objectives`.  A marker line is only skipped when it
contains a colon; otherwise it continues through the exit check and the
extraction step. -/
def objStep (st : Bool × List (List Char)) (line : List Char) : Bool × List (List Char) :=
  let ll := pyStrip (pyToLower line)
  let marker := containsAnyL ll objMarkers
  let inside0 := if marker then true else st.1
  if marker && hasColon line then (inside0, st.2)
  else
    let inside :=
      if inside0 && nonBlank line && !startsBullet line &&
          (hasColon line || (firstUpper line && !isSubL (strL "objective") ll))
      then false else inside0
    if inside && nonBlank line then
      let o := pyStrip (dropBullets line)
      if 10 < o.length then (inside, st.2 ++ [o]) else (inside, st.2)
    else (inside, st.2)

/-- The full, untruncated objectives scan. -/
def objectivesScan (notes : String) : List (List Char) :=
  ((pyLines notes).foldl objStep (false, [])).2

/-- `_extract_objectives` from the source (truncated to 8). -/
def extractObjectives (notes : String) : List (List Char) :=
  (objectivesScan notes).take 8

/-- Whether a line opens a prior-knowledge section (matched on the lowered,
unstripped line). -/
def isPriorMarker (line : List Char) : Bool :=
  isSubL (strL "prior knowledge") (pyToLower line) ||
    isSubL (strL "prerequisite") (pyToLower line)

/-- One line of `_extract_prior_knowledge`.  A non-blank, non-bullet line
inside the section is always consumed; it closes the section only when it
contains a colon. -/
def priorStep (st : Bool × List (List Char)) (line : List Char) : Bool × List (List Char) :=
  if isPriorMarker line then (true, st.2)
  else if st.1 then
    if nonBlank line && !startsBullet line then
      ((if hasColon line then false else true), st.2)
    else if nonBlank line then
      let it := pyStrip (dropBullets line)
      if 5 < it.length then (true, st.2 ++ [it]) else (true, st.2)
    else (true, st.2)
  else (false, st.2)

/-- The full, untruncated prior-knowledge scan. -/
def priorKnowledgeScan (notes : String) : List (List Char) :=
  ((pyLines notes).foldl priorStep (false, [])).2

/-- `_extract_prior_knowledge` from the source (truncated to 8). -/
def extractPriorKnowledge (notes : String) : List (List Char) :=
  (priorKnowledgeScan notes).take 8

/-- Whether a line opens a real-world-connections section (matched on the
lowered, unstripped line). -/
def isRealMarker (line : List Char) : Bool :=
  containsAnyL (pyToLower line)
    [strL "real-world", strL "real world", strL "application", strL "connection"]

/-- One line of `_extract_real_world`; same shape as `priorStep`. -/
def realStep (st : Bool × List (List Char)) (line : List Char) : Bool × List (List Char) :=
  if isRealMarker line then (true, st.2)
  else if st.1 then
    if nonBlank line && !startsBullet line then
      ((if hasColon line then false else true), st.2)
    else if nonBlank line then
      let it := pyStrip (dropBullets line)
      if 5 < it.length then (true, st.2 ++ [it]) else (true, st.2)
    else (true, st.2)
  else (false, st.2)

/-- The full, untruncated real-world scan. -/
def realWorldScan (notes : String) : List (List Char) :=
  ((pyLines notes).foldl realStep (false, [])).2

/-- `_extract_real_world` from the source (truncated to 8). -/
def extractRealWorld (notes : String) : List (List Char) :=
  (realWorldScan notes).take 8

/-! ## Vocabulary, topics, content statistics, and the full report -/

/-- Python `line.split(':', 1)[1]`: everything after the first colon. -/
def afterFirstColon (l : List Char) : List Char :=
  (l.dropWhile (fun c => !(c == ':'))).drop 1

/-- Terms contributed by one line of `_extract_vocabulary`. -/
def vocabLineTerms (line : List Char) : List (List Char) :=
  let ll := pyToLower line
  if (isSubL (strL "vocabulary") ll || isSubL (strL "vocab") ll ||
      isSubL (strL "terms") ll) && hasColon line then
    ((splitOnPred (fun c => c == ',' || c == ';') (afterFirstColon line)).map
      pyStrip).filter (fun t => !t.isEmpty)
  else []

/-- The full, untruncated vocabulary scan. -/
def vocabularyScan (notes : String) : List (List Char) :=
  ((pyLines notes).map vocabLineTerms).flatten

/-- `_extract_vocabulary` from the source (truncated to 15). -/
def extractVocabulary (notes : String) : List (List Char) :=
  (vocabularyScan notes).take 15

/-- The topic contributed by one line of `_extract_topics`, if any. -/
def topicOfLine (line : List Char) : Option (List Char) :=
  match pyStrip line with
  | [] => none
  | c :: _ =>
    if c.isDigit || c = '-' || c = '•' || c = '*' then
      let tp := (pyStrip line).dropWhile
        (fun d => d.isDigit || d == '.' || d == ')' || d == '-' || d == '•' || d == '*' || pySpace d)
      if 5 < tp.length && tp.length < 100 then some tp else none
    else none

/-- The full, untruncated topics scan. -/
def topicsScan (notes : String) : List (List Char) :=
  (pyLines notes).filterMap topicOfLine

/-- `_extract_topics` from the source (truncated to 10). -/
def extractTopics (notes : String) : List (List Char) :=
  (topicsScan notes).take 10

/-- The `content_stats` record of the analysis. -/
structure ContentStats where
  totalWords : Nat
  totalLines : Nat
  hasObjectives : Bool
  hasVocabulary : Bool
  hasStandards : Bool
deriving DecidableEq, Repr

/-- `content_stats` as computed in `NotesAnalysisTool.run`. -/
def contentStats (notes : String) : ContentStats :=
  let nl := pyToLower (strL notes)
  { totalWords := (pySplitWs (strL notes)).length
    totalLines := (pyLines notes).length
    hasObjectives := isSubL (strL "objective") nl
    hasVocabulary := isSubL (strL "vocabulary") nl || isSubL (strL "vocab") nl
    hasStandards := isSubL (strL "standard") nl }

/-- The structured analysis report assembled by `NotesAnalysisTool.run`. -/
structure AnalysisReport where
  subject : String
  gradeLevel : String
  keyConcepts : List (List Char)
  learningObjectives : List (List Char)
  vocabulary : List (List Char)
  topics : List (List Char)
  priorKnowledge : List (List Char)
  realWorldConnections : List (List Char)
  stats : ContentStats
deriving DecidableEq, Repr

/-- `analyzeNotes`: the analysis dictionary of `NotesAnalysisTool.run`. -/
def analyzeNotes (notes : String) : AnalysisReport :=
  { subject := identifySubject notes
    gradeLevel := extractGradeLevel notes
    keyConcepts := extractKeyConcepts notes
    learningObjectives := extractObjectives notes
    vocabulary := extractVocabulary notes
    topics := extractTopics notes
    priorKnowledge := extractPriorKnowledge notes
    realWorldConnections := extractRealWorld notes
    stats := contentStats notes }

/-! ## Complexity analysis (`GradeLevelAnalyzer.run`) -/

/-- The coarse grade band of the complexity analyzer. -/
inductive GradeRange where
  | elementary
  | middleSchool
  | highSchoolPlus
deriving DecidableEq, Repr

/-- The coarse complexity bucket of the complexity analyzer. -/
inductive Complexity where
  | low
  | medium
  | high
deriving DecidableEq, Repr

/-- `avg_word_length`: total characters over token count, `0` when there are
no tokens; real arithmetic is modelled over `ℚ`. -/
def avgWordLength (notes : String) : ℚ :=
  let ws := pySplitWs (strL notes)
  if ws.isEmpty then 0
  else ((ws.map List.length).sum : ℚ) / (ws.length : ℚ)

/-- `avg_sentence_length`: token count over the number of `'.'`-separated
segments, `0` when the segment list is empty. -/
def avgSentenceLength (notes : String) : ℚ :=
  let ws := pySplitWs (strL notes)
  let ss := pySplitOnChar (strL notes) '.'
  if ss.isEmpty then 0
  else ((ws.length : ℚ)) / ((ss.length : ℚ))

/-- The structured result of the complexity analyzer. -/
structure ComplexityReport where
  gradeRange : GradeRange
  complexityLevel : Complexity
  avgWordLength : ℚ
  avgSentenceLength : ℚ
deriving DecidableEq, Repr

/-- `analyzeComplexity`: the scoring chain of `GradeLevelAnalyzer.run`. -/
def analyzeComplexity (notes : String) : ComplexityReport :=
  let awl := avgWordLength notes
  let asl := avgSentenceLength notes
  if awl < 4.5 ∧ asl < 10 then ⟨.elementary, .low, awl, asl⟩
  else if awl < 5.5 ∧ asl < 15 then ⟨.middleSchool, .medium, awl, asl⟩
  else ⟨.highSchoolPlus, .high, awl, asl⟩

/-- The grade-range string set in `GradeLevelAnalyzer.run`. -/
def gradeRangeText : GradeRange → List Char
  | .elementary => strL "Elementary (K-5)"
  | .middleSchool => strL "Middle School (6-8)"
  | .highSchoolPlus => strL "High School+ (9-12+)"

/-- The complexity string set in `GradeLevelAnalyzer.run`. -/
def complexityText : Complexity → List Char
  | .low => strL "Low"
  | .medium => strL "Medium"
  | .high => strL "High"

/-- The decimal digit character for a value below ten. -/
def digitChar (n : Nat) : Char :=
  if n = 0 then '0' else if n = 1 then '1' else if n = 2 then '2' else if n = 3 then '3'
  else if n = 4 then '4' else if n = 5 then '5' else if n = 6 then '6' else if n = 7 then '7'
  else if n = 8 then '8' else '9'

/-- Decimal digits of a natural number, most significant first. -/
def digitsAux : Nat → Nat → List Char
  | 0, _ => []
  | fuel + 1, n =>
    if n < 10 then [digitChar n]
    else digitsAux fuel (n / 10) ++ [digitChar (n % 10)]

/-- Decimal representation of a natural number. -/
def natDigits (n : Nat) : List Char := digitsAux (n + 1) n

/-- Floor of a rational, computed from numerator and denominator. -/
def ratFloor (q : ℚ) : ℤ := Int.fdiv q.num (q.den : ℤ)

/-- Round a rational to the nearest integer, ties to even (the rounding used
when Python prints a float with `:.1f`, modelled over `ℚ`). -/
def roundHalfEven (q : ℚ) : ℤ :=
  let f := ratFloor q
  let r : ℚ := q - (f : ℚ)
  if r < 1 / 2 then f
  else if 1 / 2 < r then f + 1
  else if f % 2 = 0 then f else f + 1

/-- Python `f"{q:.1f}"`: the value rendered with exactly one decimal digit. -/
def fmt1 (q : ℚ) : List Char :=
  let n := roundHalfEven (q * 10)
  let sign : List Char := if n < 0 then ['-'] else []
  let m := n.natAbs
  sign ++ natDigits (m / 10) ++ ['.'] ++ natDigits (m % 10)

/-- The textual report built by `GradeLevelAnalyzer.run`. -/
def renderComplexity (notes : String) : List Char :=
  let r := analyzeComplexity notes
  strL "Content Complexity Analysis:\n" ++
    strL "  • Suggested Grade Range: " ++ gradeRangeText r.gradeRange ++ strL "\n" ++
    strL "  • Complexity Level: " ++ complexityText r.complexityLevel ++ strL "\n" ++
    strL "  • Average Word Length: " ++ fmt1 r.avgWordLength ++ strL " characters\n" ++
    strL "  • Average Sentence Length: " ++ fmt1 r.avgSentenceLength ++ strL " words\n"

theorem splitOnPred_length_pos (p : Char → Bool) (s : List Char) :
    1 ≤ (splitOnPred p s).length := by
  induction s with
  | nil => simp [splitOnPred]
  | cons c t ih =>
    simp only [splitOnPred]
    split
    · simp
    · cases h : splitOnPred p t with
      | nil => simp
      | cons a l => simp

theorem splitOnPred_ne_nil (p : Char → Bool) (s : List Char) :
    splitOnPred p s ≠ [] := by
  intro h
  have := splitOnPred_length_pos p s
  rw [h] at this
  simp at this

theorem avgSentenceLength_eq (notes : String) :
    avgSentenceLength notes =
      ((pySplitWs (strL notes)).length : ℚ) /
        ((pySplitOnChar (strL notes) '.').length : ℚ) := by
  have h : (pySplitOnChar (strL notes) '.').isEmpty = false := by
    cases hs : pySplitOnChar (strL notes) '.' with
    | nil => exact absurd hs (splitOnPred_ne_nil _ _)
    | cons a l => rfl
  simp only [avgSentenceLength, h, Bool.false_eq_true, if_false]

theorem avgWordLength_of_nil (notes : String) (h : pySplitWs (strL notes) = []) :
    avgWordLength notes = 0 := by
  simp only [avgWordLength, h, List.isEmpty_nil, if_true]

theorem fmt1_zero : fmt1 0 = strL "0.0" := by
  have h0 : roundHalfEven ((0 : ℚ) * 10) = 0 := by
    have : ((0 : ℚ) * 10) = 0 := by norm_num
    rw [this, roundHalfEven]
    have hf : ratFloor 0 = 0 := by decide
    rw [hf]
    norm_num
  simp only [fmt1, h0]
  decide

theorem awl_catsat : avgWordLength "The cat sat." = 10 / 3 := by
  have h1 : (pySplitWs (strL "The cat sat.")).isEmpty = false := by decide
  have h2 : ((pySplitWs (strL "The cat sat.")).map List.length).sum = 10 := by decide
  have h3 : (pySplitWs (strL "The cat sat.")).length = 3 := by decide
  simp only [avgWordLength, h1, h2, h3, Bool.false_eq_true, if_false]
  norm_num

theorem asl_catsat : avgSentenceLength "The cat sat." = 3 / 2 := by
  rw [avgSentenceLength_eq]
  have h3 : (pySplitWs (strL "The cat sat.")).length = 3 := by decide
  have h4 : (pySplitOnChar (strL "The cat sat.") '.').length = 2 := by decide
  rw [h3, h4]
  norm_num

theorem analyzeComplexity_empty : analyzeComplexity "" = ⟨.elementary, .low, 0, 0⟩ := by
  have hw : avgWordLength "" = 0 := avgWordLength_of_nil "" (by decide)
  have hs : avgSentenceLength "" = 0 := by
    rw [avgSentenceLength_eq]
    have h3 : (pySplitWs (strL "")).length = 0 := by decide
    rw [h3]
    norm_num
  simp only [analyzeComplexity, hw, hs]
  norm_num

theorem renderComplexity_empty :
    renderComplexity "" =
      strL "Content Complexity Analysis:\n  • Suggested Grade Range: Elementary (K-5)\n  • Complexity Level: Low\n  • Average Word Length: 0.0 characters\n  • Average Sentence Length: 0.0 words\n" := by
  simp only [renderComplexity, analyzeComplexity_empty, fmt1_zero, gradeRangeText,
    complexityText]
  decide

/-! ## Lemmas about the Python-style maximum over an ordered score list -/

theorem le_maxScore_of_mem {l : List (String × Nat)} {p : String × Nat}
    (h : p ∈ l) : p.2 ≤ maxScore l := by
  induction l with
  | nil => cases h
  | cons q t ih =>
    rcases List.mem_cons.mp h with rfl | hm
    · simp [maxScore]
    · simp only [maxScore]
      exact le_trans (ih hm) (le_max_right _ _)

theorem maxScore_le {l : List (String × Nat)} {m : Nat}
    (h : ∀ p ∈ l, p.2 ≤ m) : maxScore l ≤ m := by
  induction l with
  | nil => simp [maxScore]
  | cons q t ih =>
    simp only [maxScore]
    have h1 := h q (List.mem_cons_self _ _)
    have h2 := ih (fun p hp => h p (List.mem_cons_of_mem _ hp))
    omega

theorem find?_cons_true {α : Type} {f : α → Bool} {a : α} {l : List α}
    (h : f a = true) : (a :: l).find? f = some a := by
  simp [List.find?, h]

theorem find?_cons_false {α : Type} {f : α → Bool} {a : α} {l : List α}
    (h : f a = false) : (a :: l).find? f = l.find? f := by
  simp [List.find?, h]

theorem maxScore_positives (l : List (String × Nat)) :
    maxScore (positives l) = maxScore l := by
  induction l with
  | nil => rfl
  | cons q t ih =>
    by_cases h : 0 < q.2
    · have hc : (positives (q :: t)) = q :: positives t := by
        simp [positives, List.filter_cons, h]
      rw [hc]
      simp only [maxScore]
      omega
    · have hz : q.2 = 0 := by omega
      have hc : (positives (q :: t)) = positives t := by
        simp [positives, List.filter_cons, h]
      rw [hc]
      simp only [maxScore]
      omega

theorem positives_eq_nil {l : List (String × Nat)} (h : maxScore l = 0) :
    positives l = [] := by
  induction l with
  | nil => rfl
  | cons q t ih =>
    simp only [maxScore] at h
    have hq : ¬ 0 < q.2 := by omega
    have ht : maxScore t = 0 := by omega
    have hc : (positives (q :: t)) = positives t := by
      simp [positives, List.filter_cons, hq]
    rw [hc]
    exact ih ht

theorem positives_ne_nil {l : List (String × Nat)} (h : 0 < maxScore l) :
    positives l ≠ [] := by
  intro hnil
  have := maxScore_positives l
  rw [hnil] at this
  simp only [maxScore] at this
  omega

theorem foldl_pyStep_eq_find? (l : List (String × Nat)) :
    ∀ b : String × Nat,
      some (l.foldl pyStep b) =
        (b :: l).find? (fun p => decide (maxScore (b :: l) ≤ p.2)) := by
  induction l with
  | nil =>
    intro b
    have hb : decide (maxScore [b] ≤ b.2) = true := by simp [maxScore]
    rw [List.foldl_nil]
    simp only [List.find?]
    rw [hb]
  | cons q t ih =>
    intro b
    rw [List.foldl_cons]
    by_cases hbq : b.2 < q.2
    · have hstep : pyStep b q = q := by simp [pyStep, hbq]
      rw [hstep, ih q]
      have hqM : q.2 ≤ maxScore (q :: t) := by simp [maxScore]
      have hM : maxScore (b :: q :: t) = maxScore (q :: t) := by
        simp only [maxScore]; omega
      rw [hM]
      have hb : decide (maxScore (q :: t) ≤ b.2) = false := by
        simp only [decide_eq_false_iff_not, not_le]
        omega
      conv_rhs => rw [List.find?]
      rw [hb]
    · have hstep : pyStep b q = b := by simp [pyStep, hbq]
      rw [hstep, ih b]
      have hM : maxScore (b :: q :: t) = maxScore (b :: t) := by
        simp only [maxScore]; omega
      rw [hM]
      by_cases hb : maxScore (b :: t) ≤ b.2
      · have hbt : decide (maxScore (b :: t) ≤ b.2) = true := by simp [hb]
        conv_lhs => rw [List.find?]
        conv_rhs => rw [List.find?]
        rw [hbt]
      · have hbf : decide (maxScore (b :: t) ≤ b.2) = false := by simp [hb]
        have hqf : decide (maxScore (b :: t) ≤ q.2) = false := by
          simp only [decide_eq_false_iff_not, not_le]
          omega
        conv_lhs => rw [List.find?]
        conv_rhs => rw [List.find?, hbf, List.find?, hqf]
        rw [hbf]

theorem find?_filter_pos (l : List (String × Nat)) (M : Nat) (hM : 0 < M) :
    (positives l).find? (fun p => decide (M ≤ p.2)) =
      l.find? (fun p => decide (M ≤ p.2)) := by
  induction l with
  | nil => rfl
  | cons q t ih =>
    by_cases h : 0 < q.2
    · have hc : (positives (q :: t)) = q :: positives t := by
        simp [positives, List.filter_cons, h]
      rw [hc]
      by_cases hq : M ≤ q.2
      · have hqt : decide (M ≤ q.2) = true := by simp [hq]
        conv_lhs => rw [List.find?]
        conv_rhs => rw [List.find?]
        rw [hqt]
      · have hqf : decide (M ≤ q.2) = false := by simp [hq]
        conv_lhs => rw [List.find?]
        conv_rhs => rw [List.find?]
        rw [hqf]
        exact ih
    · have hqf : decide (M ≤ q.2) = false := by
        simp only [decide_eq_false_iff_not, not_le]
        omega
      have hc : (positives (q :: t)) = positives t := by
        simp [positives, List.filter_cons, h]
      rw [hc]
      conv_rhs => rw [List.find?]
      rw [hqf]
      exact ih

theorem find?_congr_mem {l : List (String × Nat)} {f g : String × Nat → Bool}
    (h : ∀ p ∈ l, f p = g p) : l.find? f = l.find? g := by
  induction l with
  | nil => rfl
  | cons q t ih =>
    have hq := h q (List.mem_cons_self _ _)
    have iht := ih (fun p hp => h p (List.mem_cons_of_mem _ hp))
    cases hfq : f q with
    | true =>
      rw [find?_cons_true hfq, find?_cons_true (hq ▸ hfq)]
    | false =>
      rw [find?_cons_false hfq, find?_cons_false (hq ▸ hfq)]
      exact iht

theorem identifySubject_char (notes : String) :
    identifySubject notes =
      (if maxScore (subjectScores (pyToLower (strL notes))) = 0 then
        "General/Multi-Subject"
      else
        (((subjectScores (pyToLower (strL notes))).find?
            (fun p => decide (maxScore (subjectScores (pyToLower (strL notes))) ≤ p.2))).map
          Prod.fst).getD "") := by
  set L := subjectScores (pyToLower (strL notes)) with hL
  by_cases h0 : maxScore L = 0
  · rw [if_pos h0]
    have hnil := positives_eq_nil h0
    simp [identifySubject, ← hL, hnil, pyMax]
  · rw [if_neg h0]
    have hpos : 0 < maxScore L := Nat.pos_of_ne_zero h0
    obtain ⟨b, t, hbt⟩ := List.exists_cons_of_ne_nil (positives_ne_nil hpos)
    have hfold := foldl_pyStep_eq_find? t b
    rw [← hbt, maxScore_positives, find?_filter_pos L (maxScore L) hpos] at hfold
    simp only [identifySubject, ← hL, hbt, pyMax, ← hfold]
    rfl

theorem getD_mem (l : List (String × Nat)) (d : String × Nat) :
    ∀ i : Nat, i < l.length → l.getD i d ∈ l := by
  induction l with
  | nil => intro i hi; simp at hi
  | cons q t ih =>
    intro i hi
    cases i with
    | zero => exact List.mem_cons_self _ _
    | succ j =>
      have : (q :: t).getD (j + 1) d = t.getD j d := rfl
      rw [this]
      exact List.mem_cons_of_mem _ (ih j (by simpa using hi))

theorem mem_getD (l : List (String × Nat)) (d : String × Nat) {p : String × Nat}
    (h : p ∈ l) : ∃ k, k < l.length ∧ l.getD k d = p := by
  induction l with
  | nil => cases h
  | cons q t ih =>
    rcases List.mem_cons.mp h with rfl | hm
    · exact ⟨0, by simp, rfl⟩
    · obtain ⟨k, hk, hg⟩ := ih hm
      exact ⟨k + 1, by simpa using hk, hg⟩

theorem find?_eq_getD (l : List (String × Nat)) (f : String × Nat → Bool)
    (d : String × Nat) :
    ∀ i : Nat, i < l.length →
      (∀ k, k < i → f (l.getD k d) = false) →
      f (l.getD i d) = true →
      l.find? f = some (l.getD i d) := by
  induction l with
  | nil => intro i hi; simp at hi
  | cons q t ih =>
    intro i hi hk hf
    cases i with
    | zero =>
      have hg : (q :: t).getD 0 d = q := rfl
      rw [hg] at hf ⊢
      rw [find?_cons_true hf]
    | succ j =>
      have h0 : f q = false := hk 0 (by omega)
      rw [find?_cons_false h0]
      have hgd : (q :: t).getD (j + 1) d = t.getD j d := rfl
      rw [hgd] at hf ⊢
      exact ih j (by simpa using hi) (fun k hkj => hk (k + 1) (by omega)) hf

theorem scores_getD_fst (nl : List Char) :
    ∀ (l : List (String × List String)) (i : Nat),
      ((l.map (fun p =>
          (p.1, (p.2.filter (fun k => isSubL (strL k) nl)).length))).getD i ("", 0)).1 =
        (l.getD i ("", [])).1 := by
  intro l
  induction l with
  | nil => intro i; rfl
  | cons q t ih =>
    intro i
    cases i with
    | zero => rfl
    | succ j => exact ih j

/-- Claim C1 (counterexample): on `"equation equation cell atom"` the keyword
`equation` (Mathematics) occurs twice and the keywords `cell` and `atom`
(Science) once each.  Occurrence counting as claimed would score Mathematics 2
and Science 2 and return the first-declared `Mathematics`, but the source
scores a keyword once per presence, scoring Mathematics 1, so it returns
`Science`. -/
theorem subject_occurrence_counterexample :
    identifySubject "equation equation cell atom" = "Science" ∧
      identifySubjectOcc "equation equation cell atom" = "Mathematics" ∧
      scoreAt "equation equation cell atom" 0 = 1 ∧
      (occScores (pyToLower (strL "equation equation cell atom"))).getD 0 ("", 0) =
        ("Mathematics", 2) := by
  exact ⟨by decide, by decide, by decide, by decide⟩

/-- Claim C1 (amended): for every input, the subject classifier scores each of
the eight categories by the number of its keywords that are present
(case-insensitively) in the text — each keyword counted once however often it
occurs — returns the first-declared category attaining the highest total, and
returns `General/Multi-Subject` when every category scores zero. -/
theorem subject_presence_characterization (notes : String) :
    identifySubject notes = identifySubjectPresence notes := by
  rw [identifySubject_char notes]
  simp only [identifySubjectPresence]
  by_cases h0 : maxScore (subjectScores (pyToLower (strL notes))) = 0
  · rw [if_pos h0, if_pos h0]
  · rw [if_neg h0, if_neg h0]
    have hcong := @find?_congr_mem (subjectScores (pyToLower (strL notes)))
      (fun p => decide (maxScore (subjectScores (pyToLower (strL notes))) ≤ p.2))
      (fun p => decide (p.2 = maxScore (subjectScores (pyToLower (strL notes)))))
      (fun p hp => by
        have hle := le_maxScore_of_mem hp
        exact decide_eq_decide.mpr (by omega))
    rw [hcong]

/-- Claim C5: subject classification is order-stable — when category `i` is
declared before category `j`, both attain the same positive score, that score
is maximal, and every earlier-declared category scores strictly less, the
classifier returns category `i` (the earlier-declared of the tied pair). -/
theorem subject_tiebreak_first_declared (notes : String) (i j : Nat)
    (hij : i < j) (hj : j < 8)
    (heq : scoreAt notes i = scoreAt notes j)
    (hpos : 0 < scoreAt notes i)
    (hmax : ∀ k, k < 8 → scoreAt notes k ≤ scoreAt notes i)
    (hfirst : ∀ k, k < i → scoreAt notes k < scoreAt notes i) :
    identifySubject notes = subjectAt i := by
  set L := subjectScores (pyToLower (strL notes)) with hL
  have hlen : L.length = 8 := by rw [hL]; rfl
  have hiL : i < L.length := by omega
  have hub : ∀ p ∈ L, p.2 ≤ scoreAt notes i := by
    intro p hp
    obtain ⟨k, hk, hgd⟩ := mem_getD L ("", 0) hp
    have hsk : scoreAt notes k = p.2 := by rw [scoreAt, ← hL, hgd]
    rw [← hsk]
    exact hmax k (by omega)
  have hle : maxScore L ≤ scoreAt notes i := maxScore_le hub
  have hge : scoreAt notes i ≤ maxScore L := by
    have hm := le_maxScore_of_mem (getD_mem L ("", 0) i hiL)
    rw [scoreAt, ← hL]
    exact hm
  have hMi : maxScore L = scoreAt notes i := le_antisymm hle hge
  have h0 : ¬ maxScore L = 0 := by omega
  rw [identifySubject_char notes, ← hL, if_neg h0]
  have hgd2 : ∀ k : Nat, (L.getD k ("", 0)).2 = scoreAt notes k := by
    intro k
    rw [scoreAt, ← hL]
  have hfind := find?_eq_getD L (fun p => decide (maxScore L ≤ p.2)) ("", 0) i hiL
    (fun k hk => by
      show decide (maxScore L ≤ (L.getD k ("", 0)).2) = false
      rw [hgd2 k, hMi]
      simp only [decide_eq_false_iff_not, not_le]
      exact hfirst k hk)
    (by
      show decide (maxScore L ≤ (L.getD i ("", 0)).2) = true
      rw [hgd2 i, hMi]
      simp)
  rw [hfind]
  simp only [Option.map_some', Option.getD_some]
  rw [hL]
  exact scores_getD_fst (pyToLower (strL notes)) subjectKeywords i

/-- Claim C5 (witness): on `"equation cell"` Mathematics and Science tie with
one present keyword each, every other category scores zero, and the
first-declared `Mathematics` wins. -/
theorem subject_tiebreak_witness :
    identifySubject "equation cell" = "Mathematics" :=
  subject_tiebreak_first_declared "equation cell" 0 1 (by decide) (by decide)
    (by decide) (by decide) (by decide) (by decide)

/-- Claim C2 (counterexample): `"students will learn about photosynthesis"` is
an objectives marker line with no colon, yet the extractor emits it as an
objective — the marker line is not consumed. -/
theorem objectives_marker_emitted_counterexample :
    isObjMarker (strL "students will learn about photosynthesis") = true ∧
      hasColon (strL "students will learn about photosynthesis") = false ∧
      extractObjectives "students will learn about photosynthesis" =
        [strL "students will learn about photosynthesis"] := by
  exact ⟨by decide, by decide, by decide⟩

/-- Claim C2 (amended): a line containing a section-start marker transitions
the corresponding state machine to inside and is itself consumed for the
key-concepts, prior-knowledge and real-world scans unconditionally, and for
the objectives scan whenever the marker line contains a colon; an objectives
marker line without a colon is not consumed.  The spec example behaves as
stated. -/
theorem marker_lines_consumed_amended :
    (∀ (st : Bool) (acc : List (List Char)) (line : List Char),
        isConcMarker line = true → concStep (st, acc) line = (true, acc)) ∧
    (∀ (st : Bool) (acc : List (List Char)) (line : List Char),
        isPriorMarker line = true → priorStep (st, acc) line = (true, acc)) ∧
    (∀ (st : Bool) (acc : List (List Char)) (line : List Char),
        isRealMarker line = true → realStep (st, acc) line = (true, acc)) ∧
    (∀ (st : Bool) (acc : List (List Char)) (line : List Char),
        isObjMarker line = true → hasColon line = true →
          objStep (st, acc) line = (true, acc)) ∧
    extractKeyConcepts
        "Key Concepts:\n- Photosynthesis uses light\n- Produces oxygen\n\nGrade Level: 7th Grade" =
      [strL "Photosynthesis uses light", strL "Produces oxygen"] ∧
    extractGradeLevel
        "Key Concepts:\n- Photosynthesis uses light\n- Produces oxygen\n\nGrade Level: 7th Grade" =
      "Grade 7" := by
  refine ⟨?_, ?_, ?_, ?_, by decide, by decide⟩
  · intro st acc line h
    simp [concStep, h]
  · intro st acc line h
    simp [priorStep, h]
  · intro st acc line h
    simp [realStep, h]
  · intro st acc line h hc
    simp only [isObjMarker] at h
    simp [objStep, h, hc]

/-- Claim C2 (witness): the four consumption rules applied at concrete marker
lines. -/
theorem marker_lines_consumed_witness :
    concStep (false, []) (strL "Key Concepts:") = (true, []) ∧
      priorStep (false, []) (strL "Prior Knowledge:") = (true, []) ∧
      realStep (false, []) (strL "Real-World Applications:") = (true, []) ∧
      objStep (false, []) (strL "Learning Objectives: none") = (true, []) :=
  ⟨marker_lines_consumed_amended.1 false [] _ (by decide),
   marker_lines_consumed_amended.2.1 false [] _ (by decide),
   marker_lines_consumed_amended.2.2.1 false [] _ (by decide),
   marker_lines_consumed_amended.2.2.2.1 false [] _ (by decide) (by decide)⟩

/-- Claim C3 (counterexample): inside a prior-knowledge section, the line
`"Summary of the lesson"` (non-blank, not bullet-started, uppercase first
letter, no colon) does not end the section — the state stays inside, and a
later bullet line is still emitted, contradicting the claimed exit rule. -/
theorem prior_uppercase_no_exit_counterexample :
    priorStep (true, []) (strL "Summary of the lesson") = (true, []) ∧
      firstUpper (strL "Summary of the lesson") = true ∧
      hasColon (strL "Summary of the lesson") = false ∧
      startsBullet (strL "Summary of the lesson") = false ∧
      nonBlank (strL "Summary of the lesson") = true ∧
      extractPriorKnowledge
          "Prior Knowledge:\n- basic algebra skills\nSummary of the lesson\n- counting numbers" =
        [strL "basic algebra skills", strL "counting numbers"] := by
  exact ⟨by decide, by decide, by decide, by decide, by decide, by decide⟩

/-- Claim C3 (amended): while inside a section, a non-blank line that does not
start with space, tab, `-`, `•` or `*` and is not itself a marker line ends
the key-concepts section when it contains a colon or starts uppercase, ends
the objectives section when it contains a colon or starts uppercase without
containing `objective`, and ends the prior-knowledge or real-world section
exactly when it contains a colon (an uppercase start alone does not end
them); in every such case the line is consumed, never emitted. -/
theorem section_exit_rules_amended :
    (∀ (acc : List (List Char)) (line : List Char),
        isConcMarker line = false → nonBlank line = true → startsBullet line = false →
        (hasColon line || firstUpper line) = true →
        concStep (true, acc) line = (false, acc)) ∧
    (∀ (acc : List (List Char)) (line : List Char),
        isObjMarker line = false → nonBlank line = true → startsBullet line = false →
        (hasColon line ||
          (firstUpper line && !isSubL (strL "objective") (pyStrip (pyToLower line)))) = true →
        objStep (true, acc) line = (false, acc)) ∧
    (∀ (acc : List (List Char)) (line : List Char),
        isPriorMarker line = false → nonBlank line = true → startsBullet line = false →
        priorStep (true, acc) line = (!hasColon line, acc)) ∧
    (∀ (acc : List (List Char)) (line : List Char),
        isRealMarker line = false → nonBlank line = true → startsBullet line = false →
        realStep (true, acc) line = (!hasColon line, acc)) := by
  refine ⟨?_, ?_, ?_, ?_⟩
  · intro acc line hm hnb hsb hcond
    simp [concStep, hm, hnb, hsb, hcond]
  · intro acc line hm hnb hsb hcond
    simp only [isObjMarker] at hm
    simp [objStep, hm, hnb, hsb, hcond]
  · intro acc line hm hnb hsb
    cases hco : hasColon line <;> simp [priorStep, hm, hnb, hsb, hco]
  · intro acc line hm hnb hsb
    cases hco : hasColon line <;> simp [realStep, hm, hnb, hsb, hco]

/-- Claim C3 (witness): the exit rules applied at concrete lines. -/
theorem section_exit_rules_witness :
    concStep (true, []) (strL "Homework: pages 3-4") = (false, []) ∧
      objStep (true, []) (strL "Homework assignments due") = (false, []) ∧
      priorStep (true, []) (strL "Summary of results") = (true, []) ∧
      realStep (true, []) (strL "Homework: read chapter 2") = (false, []) :=
  ⟨section_exit_rules_amended.1 [] _ (by decide) (by decide) (by decide) (by decide),
   section_exit_rules_amended.2.1 [] _ (by decide) (by decide) (by decide) (by decide),
   section_exit_rules_amended.2.2.1 [] _ (by decide) (by decide) (by decide),
   section_exit_rules_amended.2.2.2 [] _ (by decide) (by decide) (by decide)⟩

/-- Claim C4: every sequence field of the analysis report respects its cap
(10/8/15/10/8/8) and is a prefix of the corresponding full, untruncated scan,
so the surviving items keep their first-encountered order. -/
theorem report_caps_and_order (notes : String) :
    ((analyzeNotes notes).keyConcepts.length ≤ 10 ∧
      (analyzeNotes notes).keyConcepts <+: keyConceptsScan notes) ∧
    ((analyzeNotes notes).learningObjectives.length ≤ 8 ∧
      (analyzeNotes notes).learningObjectives <+: objectivesScan notes) ∧
    ((analyzeNotes notes).vocabulary.length ≤ 15 ∧
      (analyzeNotes notes).vocabulary <+: vocabularyScan notes) ∧
    ((analyzeNotes notes).topics.length ≤ 10 ∧
      (analyzeNotes notes).topics <+: topicsScan notes) ∧
    ((analyzeNotes notes).priorKnowledge.length ≤ 8 ∧
      (analyzeNotes notes).priorKnowledge <+: priorKnowledgeScan notes) ∧
    ((analyzeNotes notes).realWorldConnections.length ≤ 8 ∧
      (analyzeNotes notes).realWorldConnections <+: realWorldScan notes) := by
  have hcap : ∀ (n : Nat) (l : List (List Char)), (l.take n).length ≤ n := by
    intro n l
    rw [List.length_take]
    omega
  have hpre : ∀ (n : Nat) (l : List (List Char)), l.take n <+: l :=
    fun n l => ⟨l.drop n, List.take_append_drop n l⟩
  exact ⟨⟨hcap 10 _, hpre 10 _⟩, ⟨hcap 8 _, hpre 8 _⟩, ⟨hcap 15 _, hpre 15 _⟩,
    ⟨hcap 10 _, hpre 10 _⟩, ⟨hcap 8 _, hpre 8 _⟩, ⟨hcap 8 _, hpre 8 _⟩⟩

/-- Claim C6 (counterexample): `"Grade 6 and Grade 7 in high school"` contains
both `"Grade 7"` and `"high school"`, yet the extractor returns `"Grade 6"`:
the leftmost numeric match wins, not the particular substring `"Grade 7"`. -/
theorem grade_priority_counterexample :
    isSubL (strL "Grade 7") (strL "Grade 6 and Grade 7 in high school") = true ∧
      isSubL (strL "high school")
          (pyToLower (strL "Grade 6 and Grade 7 in high school")) = true ∧
      extractGradeLevel "Grade 6 and Grade 7 in high school" = "Grade 6" := by
  exact ⟨by decide, by decide, by decide⟩

/-- Claim C6 (amended): grade-level extraction short-circuits in priority
order — any successful numeric-grade scan (the three regex forms tried in
order, leftmost match) determines the result as `Grade N` for the digits of that
first match and wins over the keyword buckets; with no numeric match the
level-name buckets apply in their declared order; with no bucket word the
complexity-word heuristic applies; otherwise the fallback string is returned.
In particular an input containing `"high school"` whose numeric scan yields
`7` returns `"Grade 7"`. -/
theorem grade_priority_amended :
    (∀ (notes : String) (ds : List Char),
        numericGrade (pyToLower (strL notes)) = some ds →
        extractGradeLevel notes = "Grade " ++ String.mk ds) ∧
    (∀ notes : String,
        numericGrade (pyToLower (strL notes)) = none →
        containsAnyL (pyToLower (strL notes))
          [strL "elementary", strL "primary", strL "kindergarten"] = false →
        containsAnyL (pyToLower (strL notes))
          [strL "middle school", strL "junior high"] = false →
        containsAnyL (pyToLower (strL notes))
          [strL "high school", strL "secondary"] = true →
        extractGradeLevel notes = "9-12 (High School)") ∧
    (∀ notes : String,
        numericGrade (pyToLower (strL notes)) = none →
        containsAnyL (pyToLower (strL notes))
          [strL "elementary", strL "primary", strL "kindergarten"] = false →
        containsAnyL (pyToLower (strL notes))
          [strL "middle school", strL "junior high"] = false →
        containsAnyL (pyToLower (strL notes))
          [strL "high school", strL "secondary"] = false →
        containsAnyL (pyToLower (strL notes))
          [strL "college", strL "university", strL "undergraduate"] = false →
        containsAnyL (pyToLower (strL notes))
          [strL "basic", strL "introduction", strL "simple", strL "beginner"] = false →
        containsAnyL (pyToLower (strL notes))
          [strL "advanced", strL "complex", strL "in-depth"] = false →
        extractGradeLevel notes = "Not Specified (Grades 6-12 adaptable)") ∧
    (∀ notes : String,
        isSubL (strL "high school") (pyToLower (strL notes)) = true →
        numericGrade (pyToLower (strL notes)) = some (strL "7") →
        extractGradeLevel notes = "Grade 7") := by
  have hnum : ∀ (notes : String) (ds : List Char),
      numericGrade (pyToLower (strL notes)) = some ds →
      extractGradeLevel notes = "Grade " ++ String.mk ds := by
    intro notes ds h
    simp only [extractGradeLevel, h]
  refine ⟨hnum, ?_, ?_, ?_⟩
  · intro notes h h1 h2 h3
    simp only [extractGradeLevel, h, h1, h2, h3, Bool.false_eq_true, if_false, if_true]
  · intro notes h h1 h2 h3 h4 h5 h6
    simp only [extractGradeLevel, h, h1, h2, h3, h4, h5, h6, Bool.false_eq_true, if_false]
  · intro notes hhs h
    have := hnum notes (strL "7") h
    rw [this]
    rfl

/-- Claim C6 (witness): `"Grade 7 in high school"` contains `"high school"`,
its numeric scan yields `7`, and the extractor returns `"Grade 7"`. -/
theorem grade_priority_witness :
    extractGradeLevel "Grade 7 in high school" = "Grade 7" :=
  grade_priority_amended.2.2.2 "Grade 7 in high school" (by decide) (by decide)

theorem analyzeComplexity_awl (notes : String) :
    (analyzeComplexity notes).avgWordLength = avgWordLength notes := by
  simp only [analyzeComplexity]
  split_ifs <;> rfl

theorem analyzeComplexity_asl (notes : String) :
    (analyzeComplexity notes).avgSentenceLength = avgSentenceLength notes := by
  simp only [analyzeComplexity]
  split_ifs <;> rfl

/-- Claim C7: both analyzers are total with guarded divisions — a tokenless
input yields average word length 0, splitting on `'.'` always yields at least
one segment, `analyzeComplexity ""` reports both averages as 0, and
`analyzeNotes ""` yields the default report (empty sequences, fallback
subject and grade labels). -/
theorem analyzers_total_empty_defaults :
    (∀ notes : String, pySplitWs (strL notes) = [] →
        (analyzeComplexity notes).avgWordLength = 0) ∧
    (∀ notes : String, 1 ≤ (pySplitOnChar (strL notes) '.').length) ∧
    (analyzeComplexity "").avgWordLength = 0 ∧
    (analyzeComplexity "").avgSentenceLength = 0 ∧
    analyzeNotes "" =
      { subject := "General/Multi-Subject"
        gradeLevel := "Not Specified (Grades 6-12 adaptable)"
        keyConcepts := [], learningObjectives := [], vocabulary := []
        topics := [], priorKnowledge := [], realWorldConnections := []
        stats := ⟨0, 1, false, false, false⟩ } := by
  refine ⟨?_, ?_, ?_, ?_, by decide⟩
  · intro notes h
    rw [analyzeComplexity_awl]
    exact avgWordLength_of_nil notes h
  · intro notes
    exact splitOnPred_length_pos _ _
  · rw [analyzeComplexity_empty]
  · rw [analyzeComplexity_empty]

/-- Claim C7 (witness): the guarded division applied at the empty string,
whose token list is empty. -/
theorem analyzers_total_witness :
    (analyzeComplexity "").avgWordLength = 0 :=
  analyzers_total_empty_defaults.1 "" rfl

/-- Claim C8: the complexity bracketing is conjunctive — `(Elementary, Low)`
exactly when both `avgWordLength < 4.5` and `avgSentenceLength < 10`,
`(MiddleSchool, Medium)` exactly when that fails and both `< 5.5` / `< 15`
hold, `(HighSchoolPlus, High)` otherwise; and `"The cat sat."` computes
average word length `10/3`, average sentence length `3/2` (the trailing
period contributes an empty segment) and lands in `(Elementary, Low)`. -/
theorem complexity_bracketing_conjunctive (notes : String) :
    ((analyzeComplexity notes).gradeRange = GradeRange.elementary ∧
        (analyzeComplexity notes).complexityLevel = Complexity.low ↔
      avgWordLength notes < 4.5 ∧ avgSentenceLength notes < 10) ∧
    ((analyzeComplexity notes).gradeRange = GradeRange.middleSchool ∧
        (analyzeComplexity notes).complexityLevel = Complexity.medium ↔
      ¬(avgWordLength notes < 4.5 ∧ avgSentenceLength notes < 10) ∧
        (avgWordLength notes < 5.5 ∧ avgSentenceLength notes < 15)) ∧
    ((analyzeComplexity notes).gradeRange = GradeRange.highSchoolPlus ∧
        (analyzeComplexity notes).complexityLevel = Complexity.high ↔
      ¬(avgWordLength notes < 4.5 ∧ avgSentenceLength notes < 10) ∧
        ¬(avgWordLength notes < 5.5 ∧ avgSentenceLength notes < 15)) ∧
    avgWordLength "The cat sat." = 10 / 3 ∧
    avgSentenceLength "The cat sat." = 3 / 2 ∧
    analyzeComplexity "The cat sat." = ⟨.elementary, .low, 10 / 3, 3 / 2⟩ := by
  have hcat : analyzeComplexity "The cat sat." = ⟨.elementary, .low, 10 / 3, 3 / 2⟩ := by
    simp only [analyzeComplexity, awl_catsat, asl_catsat]
    rw [if_pos (by norm_num : (10 : ℚ) / 3 < 4.5 ∧ (3 : ℚ) / 2 < 10)]
  refine ⟨?_, ?_, ?_, awl_catsat, asl_catsat, hcat⟩ <;>
    · simp only [analyzeComplexity]
      split_ifs with h1 h2 <;> simp_all

/-- Claim C10: splitting on newline never yields an empty list, so
`totalLines ≥ 1` for every input; in particular `analyzeNotes ""` reports 0
words but 1 line. -/
theorem total_lines_at_least_one :
    (∀ notes : String, 1 ≤ (analyzeNotes notes).stats.totalLines) ∧
      (analyzeNotes "").stats.totalWords = 0 ∧
      (analyzeNotes "").stats.totalLines = 1 := by
  refine ⟨?_, by decide, by decide⟩
  intro notes
  exact splitOnPred_length_pos _ _

theorem digitChar_ne_newline (n : Nat) : (digitChar n == '\n') = false := by
  simp only [digitChar]
  split_ifs <;> decide

theorem digitsAux_no_newline :
    ∀ (fuel n : Nat), ∀ c ∈ digitsAux fuel n, (c == '\n') = false := by
  intro fuel
  induction fuel with
  | zero => intro n c hc; simp [digitsAux] at hc
  | succ f ih =>
    intro n c hc
    simp only [digitsAux] at hc
    by_cases h : n < 10
    · rw [if_pos h] at hc
      simp only [List.mem_singleton] at hc
      subst hc
      exact digitChar_ne_newline n
    · rw [if_neg h] at hc
      rcases List.mem_append.mp hc with h1 | h1
      · exact ih _ c h1
      · simp only [List.mem_singleton] at h1
        subst h1
        exact digitChar_ne_newline _

theorem fmt1_no_newline (q : ℚ) : ∀ c ∈ fmt1 q, (c == '\n') = false := by
  intro c hc
  simp only [fmt1, natDigits] at hc
  rcases List.mem_append.mp hc with h1 | h1
  · rcases List.mem_append.mp h1 with h2 | h2
    · rcases List.mem_append.mp h2 with h3 | h3
      · by_cases hn : roundHalfEven (q * 10) < 0
        · rw [if_pos hn] at h3
          simp only [List.mem_singleton] at h3
          subst h3
          decide
        · rw [if_neg hn] at h3
          simp at h3
      · exact digitsAux_no_newline _ _ c h3
    · simp only [List.mem_singleton] at h2
      subst h2
      decide
  · exact digitsAux_no_newline _ _ c h1

theorem gradeRangeText_no_newline (g : GradeRange) :
    ∀ c ∈ gradeRangeText g, (c == '\n') = false := by
  cases g <;> decide

theorem complexityText_no_newline (x : Complexity) :
    ∀ c ∈ complexityText x, (c == '\n') = false := by
  cases x <;> decide

theorem splitOnPred_append_sep (p : Char → Bool) (a : List Char) (csep : Char)
    (rest : List Char) (ha : ∀ c ∈ a, p c = false) (hc : p csep = true) :
    splitOnPred p (a ++ csep :: rest) = a :: splitOnPred p rest := by
  induction a with
  | nil =>
    rw [List.nil_append]
    simp only [splitOnPred]
    rw [if_pos hc]
  | cons x xs ih =>
    have hx : p x = false := ha x (List.mem_cons_self _ _)
    have ihh := ih (fun c hc2 => ha c (List.mem_cons_of_mem _ hc2))
    simp only [List.cons_append, splitOnPred, List.append_eq]
    rw [if_neg (by simp [hx]), ihh]

/-- Claim C9 (amended): for every input the rendered complexity report splits
on newline into exactly a header line, the four content lines — suggested
grade range, complexity level, average word length to one decimal, average
sentence length to one decimal — and the empty trailing piece left by the
final newline: five lines in all, not four. -/
theorem render_five_lines_amended (notes : String) :
    pySplitOnChar (renderComplexity notes) '\n' =
      [strL "Content Complexity Analysis:",
       strL "  • Suggested Grade Range: " ++
         gradeRangeText (analyzeComplexity notes).gradeRange,
       strL "  • Complexity Level: " ++
         complexityText (analyzeComplexity notes).complexityLevel,
       strL "  • Average Word Length: " ++
         fmt1 (analyzeComplexity notes).avgWordLength ++ strL " characters",
       strL "  • Average Sentence Length: " ++
         fmt1 (analyzeComplexity notes).avgSentenceLength ++ strL " words",
       []] := by
  have e1 : strL "Content Complexity Analysis:\n" =
      strL "Content Complexity Analysis:" ++ ['\n'] := by decide
  have e2 : strL "\n" = ['\n'] := by decide
  have e3 : strL " characters\n" = strL " characters" ++ ['\n'] := by decide
  have e4 : strL " words\n" = strL " words" ++ ['\n'] := by decide
  have hfull : renderComplexity notes =
      strL "Content Complexity Analysis:" ++ ('\n' ::
        ((strL "  • Suggested Grade Range: " ++
            gradeRangeText (analyzeComplexity notes).gradeRange) ++ ('\n' ::
          ((strL "  • Complexity Level: " ++
              complexityText (analyzeComplexity notes).complexityLevel) ++ ('\n' ::
            ((strL "  • Average Word Length: " ++
                fmt1 (analyzeComplexity notes).avgWordLength ++ strL " characters") ++ ('\n' ::
              ((strL "  • Average Sentence Length: " ++
                  fmt1 (analyzeComplexity notes).avgSentenceLength ++ strL " words") ++
                ['\n'])))))))) := by
    simp only [renderComplexity, e1, e2, e3, e4, List.append_assoc,
      List.singleton_append, List.cons_append, List.nil_append]
  have hb2 : ∀ c ∈ strL "  • Suggested Grade Range: " ++
      gradeRangeText (analyzeComplexity notes).gradeRange, (c == '\n') = false := by
    intro c hc
    rcases List.mem_append.mp hc with h | h
    · exact (show ∀ x ∈ strL "  • Suggested Grade Range: ", (x == '\n') = false by decide) c h
    · exact gradeRangeText_no_newline _ c h
  have hb3 : ∀ c ∈ strL "  • Complexity Level: " ++
      complexityText (analyzeComplexity notes).complexityLevel, (c == '\n') = false := by
    intro c hc
    rcases List.mem_append.mp hc with h | h
    · exact (show ∀ x ∈ strL "  • Complexity Level: ", (x == '\n') = false by decide) c h
    · exact complexityText_no_newline _ c h
  have hb4 : ∀ c ∈ strL "  • Average Word Length: " ++
      fmt1 (analyzeComplexity notes).avgWordLength ++ strL " characters",
      (c == '\n') = false := by
    intro c hc
    rcases List.mem_append.mp hc with h | h
    · rcases List.mem_append.mp h with h2 | h2
      · exact (show ∀ x ∈ strL "  • Average Word Length: ", (x == '\n') = false by decide) c h2
      · exact fmt1_no_newline _ c h2
    · exact (show ∀ x ∈ strL " characters", (x == '\n') = false by decide) c h
  have hb5 : ∀ c ∈ strL "  • Average Sentence Length: " ++
      fmt1 (analyzeComplexity notes).avgSentenceLength ++ strL " words",
      (c == '\n') = false := by
    intro c hc
    rcases List.mem_append.mp hc with h | h
    · rcases List.mem_append.mp h with h2 | h2
      · exact (show ∀ x ∈ strL "  • Average Sentence Length: ", (x == '\n') = false by decide) c h2
      · exact fmt1_no_newline _ c h2
    · exact (show ∀ x ∈ strL " words", (x == '\n') = false by decide) c h
  simp only [pySplitOnChar]
  rw [hfull]
  rw [splitOnPred_append_sep _ _ _ _ (by decide) (by decide),
    splitOnPred_append_sep _ _ _ _ hb2 (by decide),
    splitOnPred_append_sep _ _ _ _ hb3 (by decide),
    splitOnPred_append_sep _ _ _ _ hb4 (by decide)]
  have hlast := splitOnPred_append_sep (fun d => d == '\n')
    (strL "  • Average Sentence Length: " ++
      fmt1 (analyzeComplexity notes).avgSentenceLength ++ strL " words")
    '\n' [] hb5 (by decide)
  rw [hlast]
  rfl

/-- Claim C9 (counterexample): the rendered report for the empty input is the
header line `Content Complexity Analysis:` followed by the four content
lines — it contains five newline-terminated lines (six pieces when split on
newline), not four. -/
theorem render_line_count_counterexample :
    renderComplexity "" =
      strL "Content Complexity Analysis:\n  • Suggested Grade Range: Elementary (K-5)\n  • Complexity Level: Low\n  • Average Word Length: 0.0 characters\n  • Average Sentence Length: 0.0 words\n" ∧
      (pySplitOnChar (renderComplexity "") '\n').length = 6 ∧
      (renderComplexity "").count '\n' = 5 := by
  refine ⟨renderComplexity_empty, ?_, ?_⟩ <;> rw [renderComplexity_empty] <;> decide
